import Mathlib

/-!
Verification of the TONAS loader module (src/mirdata/datasets/TONAS.py).

The embedding models the annotation parsing pipeline of the module:
  - `midi_to_hz`: tuning-aware MIDI-to-frequency conversion,
  - `load_f0`: the f0 file parser,
  - `load_notes`: the notes file parser with its leading tuning row,
  - `NoteDataTonas` / `F0DataTonas`: the validating containers,
  - the Track properties `f0`, `notes` and `tuning_frequency`.

Numeric values are modelled as real numbers.  File contents are modelled as
already tokenised rows of numbers (Python's csv / float / numpy tokenisation
of the raw text is standard-library work, not this module's); a missing file
is an `Option.none` input.  Python exceptions are modelled with `Except`.

The validators of `mirdata.annotations`, the decorator `io.coerce_to_string_io`
and `core.cached_property` are not under src/ and are modelled from the spec,
as marked in their doc comments.
-/

/-- Validation failures raised by the container constructors. -/
inductive ValidationError
  | lengthMismatch
  | invalidIntervals
  | invalidTimes
  | invalidConfidence
  deriving DecidableEq

/-- Note data of one TONAS track (class `NoteDataTonas`, TONAS.py lines
97-114): intervals, note frequencies in Hz, per-note energies, and an
optional confidence array. -/
structure NoteDataTonas where
  intervals : List (ℝ × ℝ)
  notes : List ℝ
  energies : List ℝ
  confidence : Option (List ℝ)

/-- The f0 data of one TONAS track (class `F0DataTonas`, TONAS.py lines
117-140): times, automatically estimated frequencies, corrected frequencies,
energies, and an optional confidence array. -/
structure F0DataTonas where
  times : List ℝ
  automatic_frequencies : List ℝ
  frequencies : List ℝ
  energies : List ℝ
  confidence : Option (List ℝ)

/-- Modelled from the spec: `mirdata.annotations.validate_lengths_equal` is
not under src/; construction fails when any two of the provided sequences
differ in length (section 4.4).  The input is the list of lengths. -/
def validate_lengths_equal : List Nat → Bool
  | [] => true
  | n :: rest => rest.all (fun m => m == n)

/-- Length contributed by an optional array: an absent confidence array is
skipped by the length check (`none_allowed` in the source). -/
def opt_len : Option (List ℝ) → List Nat
  | none => []
  | some l => [l.length]

/-- Modelled from the spec: `mirdata.annotations.validate_intervals` is not
under src/; an interval is invalid when its end is at most its start or its
start is negative (section 4.4). -/
def validate_intervals (intervals : List (ℝ × ℝ)) : Prop :=
  ∀ p ∈ intervals, 0 ≤ p.1 ∧ p.1 < p.2

/-- Modelled from the spec: `mirdata.annotations.validate_times` is not under
src/; a time sequence must be non-negative and strictly increasing
(sections 3 and 4.4). -/
def validate_times (times : List ℝ) : Prop :=
  (∀ t ∈ times, 0 ≤ t) ∧ times.Chain' (· < ·)

/-- Modelled from the spec: `mirdata.annotations.validate_confidence` is not
under src/; every confidence value must lie in [0, 1], and an absent array is
accepted (section 4.4). -/
def validate_confidence : Option (List ℝ) → Prop
  | none => True
  | some l => ∀ c ∈ l, 0 ≤ c ∧ c ≤ 1

open Classical in
/-- Validating construction of `NoteDataTonas` (TONAS.py lines 97-114).  The
checks run in source order: lengths, intervals, confidence.  The source's
`validate_array_like` checks only element types and is not modelled. -/
noncomputable def mkNoteDataTonas (intervals : List (ℝ × ℝ)) (notes energies : List ℝ)
    (confidence : Option (List ℝ)) : Except ValidationError NoteDataTonas :=
  if validate_lengths_equal
      ([intervals.length, notes.length, energies.length] ++ opt_len confidence) then
    if validate_intervals intervals then
      if validate_confidence confidence then
        .ok ⟨intervals, notes, energies, confidence⟩
      else .error .invalidConfidence
    else .error .invalidIntervals
  else .error .lengthMismatch

open Classical in
/-- Validating construction of `F0DataTonas` (TONAS.py lines 117-140).  The
checks run in source order: lengths, times, confidence. -/
noncomputable def mkF0DataTonas (times automatic_frequencies frequencies energies : List ℝ)
    (confidence : Option (List ℝ)) : Except ValidationError F0DataTonas :=
  if validate_lengths_equal
      ([times.length, automatic_frequencies.length, frequencies.length,
        energies.length] ++ opt_len confidence) then
    if validate_times times then
      if validate_confidence confidence then
        .ok ⟨times, automatic_frequencies, frequencies, energies, confidence⟩
      else .error .invalidConfidence
    else .error .invalidTimes
  else .error .lengthMismatch

/-- Conversion from MIDI to Hz with a certain tuning frequency
(`midi_to_hz`, TONAS.py lines 323-327). -/
noncomputable def midi_to_hz (midi_note tuning_deviation : ℝ) : ℝ × ℝ :=
  let tuning_frequency : ℝ := 440 * (2 : ℝ) ^ (tuning_deviation / 1200)
  ((tuning_frequency / 32) * (2 : ℝ) ^ ((midi_note - 9) / 12), tuning_frequency)

/-- Parser for TONAS f0 files (`load_f0`, TONAS.py lines 253-281).  The input
stands for the rows produced by `np.genfromtxt`: each row's columns are
time, energy, raw frequency, corrected frequency.  A failing container
construction models the Python exception. -/
noncomputable def load_f0 (rows : List (ℝ × ℝ × ℝ × ℝ)) :
    Except ValidationError F0DataTonas :=
  let times := rows.map (fun line => line.1)
  let energies := rows.map (fun line => line.2.1)
  let freqs := rows.map (fun line => line.2.2.1)
  let freqs_corr := rows.map (fun line => line.2.2.2)
  let confidence := freqs_corr.map (fun f => if 0 < f then (1 : ℝ) else 0)
  mkF0DataTonas times freqs freqs_corr energies (some confidence)

/-- Loop state of `load_notes`: the four accumulator lists and the
`tuning_freq` variable, which the source initialises to 0 before the loop
(TONAS.py line 299). -/
structure NotesState where
  intervals : List (ℝ × ℝ)
  pitches : List ℝ
  energy : List ℝ
  confidence : List ℝ
  tuning_freq : ℝ

/-- One iteration of the `load_notes` for-loop over a data row
`(startTime, duration, midiPitch, energy)` (TONAS.py lines 303-309). -/
noncomputable def notes_step (tuning : ℝ) (st : NotesState) (line : ℝ × ℝ × ℝ × ℝ) :
    NotesState :=
  let conv := midi_to_hz line.2.2.1 tuning
  { intervals := st.intervals ++ [(line.1, line.1 + line.2.1)]
    pitches := st.pitches ++ [conv.1]
    energy := st.energy ++ [line.2.2.2]
    confidence := st.confidence ++ [1]
    tuning_freq := conv.2 }

/-- The full for-loop of `load_notes` over the data rows. -/
noncomputable def notes_loop (tuning : ℝ) (rows : List (ℝ × ℝ × ℝ × ℝ)) : NotesState :=
  rows.foldl (notes_step tuning) ⟨[], [], [], [], 0⟩

/-- Parser for TONAS note files (`load_notes`, TONAS.py lines 284-319).
`tuning` is the parsed first field of the first row; `rows` are the parsed
data rows that follow.  Returns the container paired with the final value of
the `tuning_freq` variable. -/
noncomputable def load_notes (tuning : ℝ) (rows : List (ℝ × ℝ × ℝ × ℝ)) :
    Except ValidationError (NoteDataTonas × ℝ) :=
  (mkNoteDataTonas (notes_loop tuning rows).intervals (notes_loop tuning rows).pitches
      (notes_loop tuning rows).energy (some (notes_loop tuning rows).confidence)).map
    (fun nd => (nd, (notes_loop tuning rows).tuning_freq))

/-- Modelled from the spec: `mirdata.io.coerce_to_string_io` is not under
src/.  Per the spec (section 7) an absent file makes the wrapped loader
yield an absent value without calling the parser; present content is passed
through to the parser. -/
def coerce_load {α β : Type} (loader : α → β) : Option α → Option β
  | none => none
  | some a => some (loader a)

/-- Python errors surfaced by the Track properties: subscripting the `None`
returned by a loader on an absent path (a TypeError), or a propagated
validation failure. -/
inductive PyError
  | noneNotSubscriptable
  | validation (e : ValidationError)
  deriving DecidableEq

/-- Track property `f0` (TONAS.py lines 216-218): the loader result is
returned as is, so an absent file gives an absent value. -/
noncomputable def track_f0 (f0_file : Option (List (ℝ × ℝ × ℝ × ℝ))) :
    Option (Except ValidationError F0DataTonas) :=
  coerce_load load_f0 f0_file

/-- Track property `notes` (TONAS.py lines 220-222): `load_notes(...)[0]`.
On an absent path the decorated loader yields `None` and the subscript
raises a TypeError. -/
noncomputable def track_notes (notes_file : Option (ℝ × List (ℝ × ℝ × ℝ × ℝ))) :
    Except PyError NoteDataTonas :=
  match coerce_load (fun fc => load_notes fc.1 fc.2) notes_file with
  | none => .error .noneNotSubscriptable
  | some (.error e) => .error (.validation e)
  | some (.ok p) => .ok p.1

/-- Track property `tuning_frequency` (TONAS.py lines 201-203):
`load_notes(...)[1]`, with the same subscript behaviour as `track_notes`. -/
noncomputable def track_tuning_frequency (notes_file : Option (ℝ × List (ℝ × ℝ × ℝ × ℝ))) :
    Except PyError ℝ :=
  match coerce_load (fun fc => load_notes fc.1 fc.2) notes_file with
  | none => .error .noneNotSubscriptable
  | some (.error e) => .error (.validation e)
  | some (.ok p) => .ok p.2

/-- Per-instance cache slot for the cached `notes` property. -/
structure TrackCache where
  notes_cache : Option (Except PyError NoteDataTonas)

/-- Modelled from the spec: `core.cached_property` is not under src/; a
cached property is computed on first access and cached on the instance
(spec sections 3 and 9).  An access returns the value, the updated cache,
and how many times `load_notes` ran during the access. -/
noncomputable def notes_access (notes_file : Option (ℝ × List (ℝ × ℝ × ℝ × ℝ)))
    (st : TrackCache) : Except PyError NoteDataTonas × TrackCache × Nat :=
  match st.notes_cache with
  | some v => (v, st, 0)
  | none => (track_notes notes_file, ⟨some (track_notes notes_file)⟩, 1)

/-- The `tuning_frequency` property is a plain property (TONAS.py line 201):
every access runs `load_notes` again and the cache is untouched. -/
noncomputable def tuning_frequency_access (notes_file : Option (ℝ × List (ℝ × ℝ × ℝ × ℝ)))
    (st : TrackCache) : Except PyError ℝ × TrackCache × Nat :=
  (track_tuning_frequency notes_file, st, 1)

/-! Helper lemmas. -/

lemma mkNoteDataTonas_ok {intervals : List (ℝ × ℝ)} {notes energies : List ℝ}
    {confidence : Option (List ℝ)}
    (h1 : validate_lengths_equal
      ([intervals.length, notes.length, energies.length] ++ opt_len confidence) = true)
    (h2 : validate_intervals intervals) (h3 : validate_confidence confidence) :
    mkNoteDataTonas intervals notes energies confidence =
      .ok ⟨intervals, notes, energies, confidence⟩ := by
  unfold mkNoteDataTonas
  rw [if_pos h1, if_pos h2, if_pos h3]

lemma mkNoteDataTonas_error {intervals : List (ℝ × ℝ)} {notes energies : List ℝ}
    {confidence : Option (List ℝ)}
    (h : ¬ (validate_lengths_equal
        ([intervals.length, notes.length, energies.length] ++ opt_len confidence) = true ∧
      validate_intervals intervals ∧ validate_confidence confidence)) :
    ∃ e, mkNoteDataTonas intervals notes energies confidence = .error e := by
  unfold mkNoteDataTonas
  split_ifs with h1 h2 h3
  · exact absurd ⟨h1, h2, h3⟩ h
  · exact ⟨_, rfl⟩
  · exact ⟨_, rfl⟩
  · exact ⟨_, rfl⟩

lemma mkNoteDataTonas_ok_inv {intervals : List (ℝ × ℝ)} {notes energies : List ℝ}
    {confidence : Option (List ℝ)} {d : NoteDataTonas}
    (h : mkNoteDataTonas intervals notes energies confidence = .ok d) :
    d = ⟨intervals, notes, energies, confidence⟩ := by
  unfold mkNoteDataTonas at h
  split_ifs at h
  exact (Except.ok.inj h).symm

lemma mkF0DataTonas_ok {times automatic_frequencies frequencies energies : List ℝ}
    {confidence : Option (List ℝ)}
    (h1 : validate_lengths_equal
      ([times.length, automatic_frequencies.length, frequencies.length,
        energies.length] ++ opt_len confidence) = true)
    (h2 : validate_times times) (h3 : validate_confidence confidence) :
    mkF0DataTonas times automatic_frequencies frequencies energies confidence =
      .ok ⟨times, automatic_frequencies, frequencies, energies, confidence⟩ := by
  unfold mkF0DataTonas
  rw [if_pos h1, if_pos h2, if_pos h3]

lemma mkF0DataTonas_error {times automatic_frequencies frequencies energies : List ℝ}
    {confidence : Option (List ℝ)}
    (h : ¬ (validate_lengths_equal
        ([times.length, automatic_frequencies.length, frequencies.length,
          energies.length] ++ opt_len confidence) = true ∧
      validate_times times ∧ validate_confidence confidence)) :
    ∃ e, mkF0DataTonas times automatic_frequencies frequencies energies confidence =
      .error e := by
  unfold mkF0DataTonas
  split_ifs with h1 h2 h3
  · exact absurd ⟨h1, h2, h3⟩ h
  · exact ⟨_, rfl⟩
  · exact ⟨_, rfl⟩
  · exact ⟨_, rfl⟩

lemma mkF0DataTonas_ok_inv {times automatic_frequencies frequencies energies : List ℝ}
    {confidence : Option (List ℝ)} {d : F0DataTonas}
    (h : mkF0DataTonas times automatic_frequencies frequencies energies confidence = .ok d) :
    d = ⟨times, automatic_frequencies, frequencies, energies, confidence⟩ := by
  unfold mkF0DataTonas at h
  split_ifs at h
  exact (Except.ok.inj h).symm

lemma midi_to_hz_snd (m d : ℝ) :
    (midi_to_hz m d).2 = 440 * (2 : ℝ) ^ (d / 1200) := rfl

open Classical in
lemma notes_foldl_eq (tuning : ℝ) (rows : List (ℝ × ℝ × ℝ × ℝ)) (st : NotesState) :
    List.foldl (notes_step tuning) st rows =
      { intervals := st.intervals ++ rows.map (fun l => (l.1, l.1 + l.2.1))
        pitches := st.pitches ++ rows.map (fun l => (midi_to_hz l.2.2.1 tuning).1)
        energy := st.energy ++ rows.map (fun l => l.2.2.2)
        confidence := st.confidence ++ rows.map (fun _ => (1 : ℝ))
        tuning_freq := if rows = [] then st.tuning_freq
          else 440 * (2 : ℝ) ^ (tuning / 1200) } := by
  induction rows generalizing st with
  | nil =>
      cases st
      simp
  | cons r rest ih =>
      rw [List.foldl_cons, ih]
      simp [notes_step, midi_to_hz, ite_self]

open Classical in
lemma notes_loop_eq (tuning : ℝ) (rows : List (ℝ × ℝ × ℝ × ℝ)) :
    notes_loop tuning rows =
      { intervals := rows.map (fun l => (l.1, l.1 + l.2.1))
        pitches := rows.map (fun l => (midi_to_hz l.2.2.1 tuning).1)
        energy := rows.map (fun l => l.2.2.2)
        confidence := rows.map (fun _ => (1 : ℝ))
        tuning_freq := if rows = [] then 0
          else 440 * (2 : ℝ) ^ (tuning / 1200) } := by
  unfold notes_loop
  rw [notes_foldl_eq]
  simp

lemma load_notes_ok_inv {tuning : ℝ} {rows : List (ℝ × ℝ × ℝ × ℝ)}
    {nd : NoteDataTonas} {tf : ℝ} (h : load_notes tuning rows = .ok (nd, tf)) :
    nd = ⟨(notes_loop tuning rows).intervals, (notes_loop tuning rows).pitches,
          (notes_loop tuning rows).energy, some (notes_loop tuning rows).confidence⟩ ∧
    tf = (notes_loop tuning rows).tuning_freq := by
  unfold load_notes at h
  cases hm : mkNoteDataTonas (notes_loop tuning rows).intervals
      (notes_loop tuning rows).pitches (notes_loop tuning rows).energy
      (some (notes_loop tuning rows).confidence) with
  | error e => rw [hm] at h; exact Except.noConfusion h
  | ok d =>
      rw [hm] at h
      simp only [Except.map] at h
      obtain ⟨hd, htf⟩ := Prod.mk.injEq .. ▸ Except.ok.inj h
      exact ⟨hd ▸ mkNoteDataTonas_ok_inv hm, htf.symm⟩

lemma load_f0_ok_inv {rows : List (ℝ × ℝ × ℝ × ℝ)} {a : F0DataTonas}
    (h : load_f0 rows = .ok a) :
    a = ⟨rows.map (fun l => l.1), rows.map (fun l => l.2.2.1),
         rows.map (fun l => l.2.2.2), rows.map (fun l => l.2.1),
         some ((rows.map (fun l => l.2.2.2)).map (fun f => if 0 < f then (1 : ℝ) else 0))⟩ := by
  unfold load_f0 at h
  exact mkF0DataTonas_ok_inv h

lemma midi69 : midi_to_hz 69 0 = (440, 440) := by
  unfold midi_to_hz
  rw [show ((0 : ℝ) / 1200) = 0 by norm_num, Real.rpow_zero,
    show (((69 : ℝ) - 9) / 12) = ((5 : ℕ) : ℝ) by norm_num, Real.rpow_natCast]
  norm_num

lemma midi81 : midi_to_hz 81 0 = (880, 440) := by
  unfold midi_to_hz
  rw [show ((0 : ℝ) / 1200) = 0 by norm_num, Real.rpow_zero,
    show (((81 : ℝ) - 9) / 12) = ((6 : ℕ) : ℝ) by norm_num, Real.rpow_natCast]
  norm_num

lemma load_notes_nil_eval (d : ℝ) :
    load_notes d [] = .ok (⟨[], [], [], some []⟩, 0) := by
  unfold load_notes
  rw [notes_loop_eq]
  simp only [List.map_nil, if_pos rfl]
  rw [mkNoteDataTonas_ok (by decide)
    (by simp [validate_intervals]) (by simp [validate_confidence])]
  rfl

lemma map_one_eq_replicate (rows : List (ℝ × ℝ × ℝ × ℝ)) :
    rows.map (fun _ => (1 : ℝ)) = List.replicate rows.length (1 : ℝ) := by
  induction rows with
  | nil => rfl
  | cons r rest ih => simp [List.replicate_succ, ih]

lemma tuning_zero : 440 * (2 : ℝ) ^ ((0 : ℝ) / 1200) = 440 := by
  rw [show ((0 : ℝ) / 1200) = 0 by norm_num, Real.rpow_zero]
  norm_num

lemma load_f0_single_eval :
    load_f0 [((1 : ℝ), 0.9, 220, 0)] = .ok ⟨[1], [220], [0], [0.9], some [0]⟩ := by
  unfold load_f0
  simp only [List.map_cons, List.map_nil]
  rw [if_neg (by norm_num : ¬ (0 : ℝ) < 0)]
  exact mkF0DataTonas_ok (by decide)
    (by norm_num [validate_times, List.chain'_singleton])
    (by norm_num [validate_confidence])

lemma load_notes_single_eval :
    load_notes 0 [((0 : ℝ), 1, 69, 0.8)] =
      .ok (⟨[(0, 1)], [440], [0.8], some [1]⟩, 440) := by
  unfold load_notes
  rw [notes_loop_eq]
  dsimp only
  rw [if_neg (List.cons_ne_nil _ _), tuning_zero]
  simp only [List.map_cons, List.map_nil, midi69]
  norm_num
  rw [mkNoteDataTonas_ok (by decide)
    (by norm_num [validate_intervals]) (by norm_num [validate_confidence])]
  rfl

/-! Claim theorems. -/

/-- Claim C1, counterexample: with only the tuning row (deviation 0) and no
data rows, `load_notes` returns a tuning frequency of 0, while the claim
demands 440 * 2^(0/1200) = 440, and 0 is not 440. -/
theorem tonas_C1_counterexample :
    load_notes 0 [] = .ok (⟨[], [], [], some []⟩, 0) ∧
    440 * (2 : ℝ) ^ ((0 : ℝ) / 1200) = 440 ∧ (0 : ℝ) ≠ 440 :=
  ⟨load_notes_nil_eval 0, tuning_zero, by norm_num⟩

/-- Claim C1, amended: for a note annotation input with only the tuning line
and no data rows, `load_notes` returns a NoteDataTonas with zero notes
together with a tuning frequency equal to 0, the initial value of the loop
variable, regardless of the tuning deviation — not 440 * 2^(d/1200). -/
theorem tonas_C1 (d : ℝ) : load_notes d [] = .ok (⟨[], [], [], some []⟩, 0) :=
  load_notes_nil_eval d

/-- Claim C2: for every MIDI pitch m and tuning deviation d, `midi_to_hz`
returns the pair (noteFrequencyHz, tuningFrequencyHz) with
tuningFrequencyHz = 440 * 2^(d/1200) and
noteFrequencyHz = (tuningFrequencyHz / 32) * 2^((m - 9)/12); in particular
`midi_to_hz 69 0` is (440, 440). -/
theorem tonas_C2 :
    (∀ m d : ℝ, (midi_to_hz m d).2 = 440 * (2 : ℝ) ^ (d / 1200) ∧
      (midi_to_hz m d).1 = ((midi_to_hz m d).2 / 32) * (2 : ℝ) ^ ((m - 9) / 12)) ∧
    midi_to_hz 69 0 = (440, 440) :=
  ⟨fun _ _ => ⟨rfl, rfl⟩, midi69⟩

/-- Claim C3: `load_f0` parses each row positionally as (time, energy,
rawFrequency, correctedFrequency), and in the resulting container the
confidence at every index is 1 exactly when the corrected frequency there is
positive, and 0 otherwise. -/
theorem tonas_C3 (rows : List (ℝ × ℝ × ℝ × ℝ)) (a : F0DataTonas)
    (h : load_f0 rows = .ok a) :
    a.times = rows.map (fun l => l.1) ∧
    a.energies = rows.map (fun l => l.2.1) ∧
    a.automatic_frequencies = rows.map (fun l => l.2.2.1) ∧
    a.frequencies = rows.map (fun l => l.2.2.2) ∧
    a.confidence = some (rows.map (fun l => if 0 < l.2.2.2 then (1 : ℝ) else 0)) ∧
    ∀ conf, a.confidence = some conf →
      ∀ i, ∀ h1 : i < conf.length, ∀ h2 : i < a.frequencies.length,
        (conf.get ⟨i, h1⟩ = 1 ↔ 0 < a.frequencies.get ⟨i, h2⟩) ∧
        (conf.get ⟨i, h1⟩ = 1 ∨ conf.get ⟨i, h1⟩ = 0) := by
  obtain rfl := load_f0_ok_inv h
  refine ⟨rfl, rfl, rfl, rfl, by rw [List.map_map]; rfl, ?_⟩
  intro conf hconf i h1 h2
  have hc := Option.some.inj hconf
  subst hc
  simp only [List.get_eq_getElem, List.getElem_map]
  split_ifs with hf
  · simp [hf]
  · simp only [hf, iff_false]
    norm_num

/-- Witness for C3 at the spec's example row (1.0, 0.9, 220.0, 0.0). -/
theorem tonas_C3_witness :
    (F0DataTonas.mk [1] [220] [0] [0.9] (some [0])).confidence =
      some ([((1 : ℝ), (0.9 : ℝ), (220 : ℝ), (0 : ℝ))].map
        (fun l => if 0 < l.2.2.2 then (1 : ℝ) else 0)) :=
  (tonas_C3 [((1 : ℝ), 0.9, 220, 0)] _ load_f0_single_eval).2.2.2.2.1

/-- Claim C4: on the exact note file content with tuning 0 and rows
(0.0, 1.0, 69, 0.8) and (1.0, 0.5, 81, 0.6), `load_notes` yields a tuning
frequency of 440, a first note of 440 Hz on [0, 1], and a second note of
880 Hz on [1, 1.5]. -/
theorem tonas_C4 :
    load_notes 0 [((0 : ℝ), 1, 69, 0.8), (1, 0.5, 81, 0.6)] =
      .ok (⟨[(0, 1), (1, 1.5)], [440, 880], [0.8, 0.6], some [1, 1]⟩, 440) := by
  unfold load_notes
  rw [notes_loop_eq]
  dsimp only
  rw [if_neg (List.cons_ne_nil _ _), tuning_zero]
  simp only [List.map_cons, List.map_nil, midi69, midi81]
  norm_num
  rw [mkNoteDataTonas_ok (by decide)
    (by norm_num [validate_intervals]) (by norm_num [validate_confidence])]
  rfl

/-- Claim C5: every data row (startTime, duration, midiPitch, energy)
produces the interval [startTime, startTime + duration], so subtracting the
interval endpoints recovers the duration column exactly. -/
theorem tonas_C5 (tuning : ℝ) (rows : List (ℝ × ℝ × ℝ × ℝ)) (nd : NoteDataTonas)
    (tf : ℝ) (h : load_notes tuning rows = .ok (nd, tf)) :
    nd.intervals.map (fun p => p.2 - p.1) = rows.map (fun l => l.2.1) := by
  obtain ⟨rfl, -⟩ := load_notes_ok_inv h
  rw [notes_loop_eq]
  dsimp only
  rw [List.map_map]
  congr 1
  funext l
  dsimp [Function.comp]
  ring

/-- Witness for C5 at a one-row note file. -/
theorem tonas_C5_witness :
    (NoteDataTonas.mk [((0 : ℝ), (1 : ℝ))] [440] [0.8] (some [1])).intervals.map
        (fun p => p.2 - p.1) =
      [((0 : ℝ), (1 : ℝ), (69 : ℝ), (0.8 : ℝ))].map (fun l => l.2.1) :=
  tonas_C5 0 [((0 : ℝ), 1, 69, 0.8)] _ 440 load_notes_single_eval

/-- Claim C6: in every NoteDataTonas produced by `load_notes` the confidence
sequence is uniformly 1 and has the same length as the interval sequence. -/
theorem tonas_C6 (tuning : ℝ) (rows : List (ℝ × ℝ × ℝ × ℝ)) (nd : NoteDataTonas)
    (tf : ℝ) (h : load_notes tuning rows = .ok (nd, tf)) :
    nd.confidence = some (List.replicate nd.intervals.length (1 : ℝ)) := by
  obtain ⟨rfl, -⟩ := load_notes_ok_inv h
  rw [notes_loop_eq]
  dsimp only
  rw [List.length_map, map_one_eq_replicate]

/-- Witness for C6 at a one-row note file. -/
theorem tonas_C6_witness :
    (NoteDataTonas.mk [((0 : ℝ), (1 : ℝ))] [440] [0.8] (some [1])).confidence =
      some (List.replicate
        (NoteDataTonas.mk [((0 : ℝ), (1 : ℝ))] [440] [0.8] (some [1])).intervals.length
        (1 : ℝ)) :=
  tonas_C6 0 [((0 : ℝ), 1, 69, 0.8)] _ 440 load_notes_single_eval

/-- Claim C7: constructing NoteDataTonas or F0DataTonas fails with a
ValidationError whenever two provided sequences differ in length, an interval
is invalid, the time sequence is not non-negative strictly increasing, or a
confidence value is out of [0, 1]; construction succeeds otherwise and the
stored fields equal the inputs. -/
theorem tonas_C7 :
    (∀ (intervals : List (ℝ × ℝ)) (notes energies : List ℝ)
        (confidence : Option (List ℝ)),
      (validate_lengths_equal
            ([intervals.length, notes.length, energies.length] ++
              opt_len confidence) = true ∧
          validate_intervals intervals ∧ validate_confidence confidence →
        mkNoteDataTonas intervals notes energies confidence =
          .ok ⟨intervals, notes, energies, confidence⟩) ∧
      (¬ (validate_lengths_equal
            ([intervals.length, notes.length, energies.length] ++
              opt_len confidence) = true ∧
          validate_intervals intervals ∧ validate_confidence confidence) →
        ∃ e, mkNoteDataTonas intervals notes energies confidence = .error e)) ∧
    (∀ (times automatic_frequencies frequencies energies : List ℝ)
        (confidence : Option (List ℝ)),
      (validate_lengths_equal
            ([times.length, automatic_frequencies.length, frequencies.length,
              energies.length] ++ opt_len confidence) = true ∧
          validate_times times ∧ validate_confidence confidence →
        mkF0DataTonas times automatic_frequencies frequencies energies confidence =
          .ok ⟨times, automatic_frequencies, frequencies, energies, confidence⟩) ∧
      (¬ (validate_lengths_equal
            ([times.length, automatic_frequencies.length, frequencies.length,
              energies.length] ++ opt_len confidence) = true ∧
          validate_times times ∧ validate_confidence confidence) →
        ∃ e, mkF0DataTonas times automatic_frequencies frequencies energies
          confidence = .error e)) :=
  ⟨fun _ _ _ _ =>
    ⟨fun hh => mkNoteDataTonas_ok hh.1 hh.2.1 hh.2.2, mkNoteDataTonas_error⟩,
   fun _ _ _ _ _ =>
    ⟨fun hh => mkF0DataTonas_ok hh.1 hh.2.1 hh.2.2, mkF0DataTonas_error⟩⟩

/-- Witness for C7: a valid empty note container and a valid two-row f0
container are both accepted and stored as given. -/
theorem tonas_C7_witness :
    mkNoteDataTonas [] [] [] none = .ok ⟨[], [], [], none⟩ ∧
    mkF0DataTonas [0, 1] [100, 200] [110, 210] [0.5, 0.6] (some [1, 0]) =
      .ok ⟨[0, 1], [100, 200], [110, 210], [0.5, 0.6], some [1, 0]⟩ :=
  ⟨(tonas_C7.1 [] [] [] none).1
      ⟨by decide, by simp [validate_intervals], by simp [validate_confidence]⟩,
   (tonas_C7.2 [0, 1] [100, 200] [110, 210] [0.5, 0.6] (some [1, 0])).1
      ⟨by decide,
       by norm_num [validate_times, List.chain'_cons, List.chain'_singleton],
       by norm_num [validate_confidence]⟩⟩

/-- Claim C8, counterexample: accessing the notes property on a track whose
notes file is absent does not give an absent value; load_notes returns None
and the subscript [0] raises a TypeError. -/
theorem tonas_C8_counterexample :
    track_notes none = .error .noneNotSubscriptable := rfl

/-- Claim C8, amended: accessing the f0 (melody) property on a track whose
f0 file is absent returns an absent value, but the notes property raises,
because line 222 subscripts the None result of load_notes with [0]; empty f0
input yields empty sequences that satisfy the container invariants. -/
theorem tonas_C8 :
    track_f0 none = none ∧
    track_notes none = .error .noneNotSubscriptable ∧
    load_f0 [] = .ok ⟨[], [], [], [], some []⟩ := by
  refine ⟨rfl, rfl, ?_⟩
  unfold load_f0
  simp only [List.map_nil]
  exact mkF0DataTonas_ok (by decide) (by simp [validate_times])
    (by simp [validate_confidence])

/-- Claim C9, counterexample: the claim contrasts tuning_frequency with the
notes property, saying the latter yields an absent value; in fact both
subscript the None result of load_notes and raise the same error. -/
theorem tonas_C9_counterexample :
    track_tuning_frequency none = .error .noneNotSubscriptable ∧
    track_notes none = .error .noneNotSubscriptable :=
  ⟨rfl, rfl⟩

/-- Claim C9, amended: accessing tuning_frequency on a track whose notes
path is absent raises (it subscripts the None result of load_notes with
[1]), and the notes property does the same through its [0] subscript; a
tuning_frequency access always runs load_notes again and never touches the
cache, while a repeated access of the cached notes property does not parse
again. -/
theorem tonas_C9 :
    track_tuning_frequency none = .error .noneNotSubscriptable ∧
    track_notes none = .error .noneNotSubscriptable ∧
    (∀ (file : Option (ℝ × List (ℝ × ℝ × ℝ × ℝ))) (st : TrackCache),
      (tuning_frequency_access file st).2.2 = 1 ∧
      (tuning_frequency_access file st).2.1 = st) ∧
    (∀ file : Option (ℝ × List (ℝ × ℝ × ℝ × ℝ)),
      (notes_access file (notes_access file ⟨none⟩).2.1).2.2 = 0) :=
  ⟨rfl, rfl, fun _ _ => ⟨rfl, rfl⟩, fun _ => rfl⟩

/-- Claim C10: the tuning frequency returned by `midi_to_hz` depends only on
the tuning deviation, not on the MIDI note, and consequently the tuning
frequency recomputed per row by the `load_notes` loop is the same for all
(non-empty) row lists of one file. -/
theorem tonas_C10 :
    (∀ m1 m2 d : ℝ, (midi_to_hz m1 d).2 = (midi_to_hz m2 d).2) ∧
    (∀ (d : ℝ) (rows1 rows2 : List (ℝ × ℝ × ℝ × ℝ)), rows1 ≠ [] → rows2 ≠ [] →
      (notes_loop d rows1).tuning_freq = (notes_loop d rows2).tuning_freq) := by
  refine ⟨fun _ _ _ => rfl, fun d r1 r2 h1 h2 => ?_⟩
  rw [notes_loop_eq, notes_loop_eq]
  dsimp only
  rw [if_neg h1, if_neg h2]

/-- Witness for C10 at two different one-row files with tuning deviation 0. -/
theorem tonas_C10_witness :
    (notes_loop 0 [((0 : ℝ), 1, 69, 0.8)]).tuning_freq =
      (notes_loop 0 [((2 : ℝ), 1, 81, 0.5)]).tuning_freq :=
  tonas_C10.2 0 _ _ (List.cons_ne_nil _ _) (List.cons_ne_nil _ _)
